import Mathlib

/-!
Shallow embedding of `final.py` (PolitiFact scrape + Google Fact Check
verification dashboard).  Python strings are modelled as `List Char`;
Python values that may be non-strings as `PyVal`; `pandas` timestamps as
calendar dates with a strictly monotone numeric code; HTTP traffic as
explicit outcome values passed to the functions that would perform it.
Regex character classes `\s`, `\d`, `[A-Za-z]` are modelled by their ASCII
parts (all text the program actually matches is ASCII).
-/

namespace FactCheck

/-- Convert a Lean string literal to the `List Char` representation. -/
def ltoList (s : String) : List Char :=
  s.data

/-- Python `\s` / `str.strip` whitespace class (ASCII part):
space, tab, newline, carriage return, vertical tab, form feed. -/
def isSpaceChar (c : Char) : Bool :=
  c == ' ' || c == '\t' || c == '\n' || c == '\r' || c == Char.ofNat 11 || c == Char.ofNat 12

/-- The characters removed by `clean_text`'s first substitution,
`re.sub(r'[“”"\'.,!?]', '', text)`: left/right curly double quotes,
straight double quote, apostrophe, period, comma, bang, question mark. -/
def strippedChars : List Char :=
  [Char.ofNat 8220, Char.ofNat 8221, Char.ofNat 34, Char.ofNat 39, '.', ',', '!', '?']

/-- A Python value as far as this program inspects one: a string,
a number, or `None`. -/
inductive PyVal where
  | str (s : List Char)
  | num (n : Int)
  | noneVal
  deriving DecidableEq

def PyVal.isStr : PyVal → Bool
  | PyVal.str _ => true
  | _ => false

/-- `re.sub(r'[“”"\'.,!?]', '', text)`. -/
def removePunct (s : List Char) : List Char :=
  s.filter (fun c => !(strippedChars.contains c))

/-- Worker for `re.sub(r'\s+', ' ', text)`: the flag records whether the
previous character was whitespace (in which case further whitespace is
absorbed into the already-emitted single space). -/
def collapseAux : Bool → List Char → List Char
  | _, [] => []
  | prevWS, c :: rest =>
    if isSpaceChar c then
      if prevWS then collapseAux true rest else ' ' :: collapseAux true rest
    else
      c :: collapseAux false rest

/-- `re.sub(r'\s+', ' ', text)`: each maximal whitespace run becomes one space. -/
def collapseWS (s : List Char) : List Char :=
  collapseAux false s

/-- Python `str.strip()`: drop whitespace from both ends. -/
def stripWS (s : List Char) : List Char :=
  (((s.dropWhile isSpaceChar).reverse).dropWhile isSpaceChar).reverse

/-- `clean_text` (final.py lines 26-32): non-strings map to `""`; strings
have the quote/punctuation set removed, whitespace runs collapsed to a
single space, ends stripped, and the result truncated to 250 characters. -/
def clean_text : PyVal → List Char
  | PyVal.str s => (stripWS (collapseWS (removePunct s))).take 250
  | _ => []

/-! ## Google Fact Check verifier (`get_fact_check_result`) -/

/-- One entry of a claim's `claimReview` array; `none` fields model absent
JSON keys (the code supplies defaults via `dict.get`). -/
structure Review where
  textualRating : Option (List Char)
  publisherName : Option (List Char)
  url : Option (List Char)
  deriving DecidableEq

/-- One entry of the API's `claims` array. -/
structure Claim where
  claimReview : List Review
  deriving DecidableEq

/-- The verifier's result dictionary. -/
structure VerificationResult where
  verdict : List Char
  publisher : Option (List Char)
  rating : Option (List Char)
  url : Option (List Char)
  deriving DecidableEq

/-- `startsWithL pat s`: `s` begins with `pat`. -/
def startsWithL : List Char → List Char → Bool
  | [], _ => true
  | _ :: _, [] => false
  | a :: as, b :: bs => a == b && startsWithL as bs

/-- Python's substring test `pat in s`. -/
def occursIn (pat : List Char) : List Char → Bool
  | [] => pat.isEmpty
  | c :: rest => startsWithL pat (c :: rest) || occursIn pat rest

/-- Keywords whose presence in a lower-cased rating yields verdict "False". -/
def falseKeywords : List (List Char) :=
  [ltoList "false", ltoList "misleading", ltoList "pants"]

/-- Keywords whose presence in a lower-cased rating yields verdict "True". -/
def trueKeywords : List (List Char) :=
  [ltoList "true", ltoList "accurate", ltoList "correct", ltoList "mostly true"]

/-- `any(k in rating_text for k in ks)`. -/
def containsAnyKw (t : List Char) (ks : List (List Char)) : Bool :=
  ks.any (fun k => occursIn k t)

/-- Python `str.lower()` (ASCII part). -/
def lowerL (s : List Char) : List Char :=
  s.map Char.toLower

def unverifiedResult : VerificationResult :=
  ⟨ltoList "Unverified", none, none, none⟩

/-- The body of the inner review loop (final.py lines 54-62): lower-case the
textual rating, test the false keywords then the true keywords, and return
the corresponding result, or nothing when neither set matches. -/
def classifyReview (r : Review) : Option VerificationResult :=
  let t := lowerL (r.textualRating.getD [])
  let pub := r.publisherName.getD (ltoList "Unknown")
  let u := r.url.getD []
  if containsAnyKw t falseKeywords then
    some ⟨ltoList "False", some pub, some t, some u⟩
  else if containsAnyKw t trueKeywords then
    some ⟨ltoList "True", some pub, some t, some u⟩
  else
    none

/-- The inner `for review in claim.get("claimReview", [])` loop: first
classified review wins. -/
def scanReviews : List Review → Option VerificationResult
  | [] => none
  | r :: rest =>
    match classifyReview r with
    | some v => some v
    | none => scanReviews rest

/-- The outer `for claim in data` loop. -/
def scanClaims : List Claim → Option VerificationResult
  | [] => none
  | c :: rest =>
    match scanReviews c.claimReview with
    | some v => some v
    | none => scanClaims rest

/-- What the attempted HTTP request would produce: a successful JSON body's
`claims` array, or a `requests.RequestException` (HTTP error status raised by
`raise_for_status`, transport failure, or an unparsable JSON body) carrying
`str(e)`. -/
inductive HTTPOutcome where
  | success (claims : List Claim)
  | error (msg : List Char)

/-- `if not FACT_API_KEY`: the key is falsy when unset or the empty string. -/
def keyMissing : Option (List Char) → Bool
  | none => true
  | some s => s.isEmpty

/-- `get_fact_check_result` (final.py lines 38-66).  `apiKey` models the
`FACT_API_KEY` environment value, `net` the outcome the HTTP request would
have. -/
def get_fact_check_result (apiKey : Option (List Char)) (statement : PyVal)
    (net : HTTPOutcome) : VerificationResult :=
  if keyMissing apiKey then
    ⟨ltoList "API Key Missing", none, none, none⟩
  else
    let query := clean_text statement
    if query.isEmpty then
      ⟨ltoList "Unverified", none, none, none⟩
    else
      match net with
      | HTTPOutcome.success claims => (scanClaims claims).getD unverifiedResult
      | HTTPOutcome.error msg => ⟨ltoList "API Error", none, some msg, none⟩

/-- Modelled from the spec's wording of the classification policy: a single
first-match scan over the reviews of all claims flattened in API order,
testing the false keyword set then the true keyword set on the lower-cased
rating; "Unverified" when no review matches.  Compared against the nested
loops of `get_fact_check_result`. -/
def specClassifyFlat : List Review → VerificationResult
  | [] => unverifiedResult
  | r :: rest =>
    let t := lowerL (r.textualRating.getD [])
    if containsAnyKw t falseKeywords then
      ⟨ltoList "False", some (r.publisherName.getD (ltoList "Unknown")), some t, some (r.url.getD [])⟩
    else if containsAnyKw t trueKeywords then
      ⟨ltoList "True", some (r.publisherName.getD (ltoList "Unknown")), some t, some (r.url.getD [])⟩
    else
      specClassifyFlat rest

/-! ## PolitiFact scraper (`scrape_politifact`) -/

/-- A calendar date as produced by `pd.to_datetime` on a "Month day, year"
string (time-of-day is always midnight here, so dates suffice). -/
structure PDate where
  y : Nat
  m : Nat
  d : Nat
  deriving DecidableEq

/-- Strictly monotone numeric code for `(y, m, d)` lexicographic order
(valid months are ≤ 12 and days ≤ 31, so the coefficients never overlap);
timestamp comparisons are comparisons of codes. -/
def PDate.code (t : PDate) : Nat :=
  t.y * 1000 + t.m * 50 + t.d

def natOfDigits (ds : List Char) : Nat :=
  ds.foldl (fun acc c => 10 * acc + (c.toNat - 48)) 0

/-- Month words accepted by `dateutil` (used by `pd.to_datetime`):
full names and their abbreviations, matched case-insensitively. -/
def monthTable : List (List Char × Nat) :=
  [(ltoList "january", 1), (ltoList "jan", 1),
   (ltoList "february", 2), (ltoList "feb", 2),
   (ltoList "march", 3), (ltoList "mar", 3),
   (ltoList "april", 4), (ltoList "apr", 4),
   (ltoList "may", 5),
   (ltoList "june", 6), (ltoList "jun", 6),
   (ltoList "july", 7), (ltoList "jul", 7),
   (ltoList "august", 8), (ltoList "aug", 8),
   (ltoList "september", 9), (ltoList "sept", 9), (ltoList "sep", 9),
   (ltoList "october", 10), (ltoList "oct", 10),
   (ltoList "november", 11), (ltoList "nov", 11),
   (ltoList "december", 12), (ltoList "dec", 12)]

def parseMonth (w : List Char) : Option Nat :=
  monthTable.lookup (lowerL w)

def isLeap (y : Nat) : Bool :=
  (y % 4 == 0 && y % 100 != 0) || y % 400 == 0

def daysInMonth (m y : Nat) : Nat :=
  if m == 2 then (if isLeap y then 29 else 28)
  else if m == 4 || m == 6 || m == 9 || m == 11 then 30
  else 31

/-- `pd.to_datetime` restricted to its actual inputs here: captures of the
date regex, of shape `[A-Za-z]+\s+\d{1,2},\s+\d{4}`.  An unknown month word
or an out-of-range day raises `ValueError` in Python, modelled as `none`. -/
def to_datetime (cap : List Char) : Option PDate :=
  let letters := cap.takeWhile Char.isAlpha
  match parseMonth letters with
  | none => none
  | some m =>
    let t1 := (cap.drop letters.length).dropWhile isSpaceChar
    let dayDs := t1.takeWhile Char.isDigit
    let day := natOfDigits dayDs
    let t2 := ((t1.drop dayDs.length).drop 1).dropWhile isSpaceChar
    let yr := natOfDigits (t2.takeWhile Char.isDigit)
    if 1 ≤ day && day ≤ daysInMonth m yr then some ⟨yr, m, day⟩ else none

/-- Tail `\s+\d{4}` of the date pattern after the day's comma; on success
returns the full capture group rebuilt from its matched pieces. -/
def finishDate (letters ws1 dayDs r3 : List Char) : Option (List Char) :=
  let ws2 := r3.takeWhile isSpaceChar
  if ws2.isEmpty then none
  else
    let r4 := r3.drop ws2.length
    let yr := r4.takeWhile Char.isDigit
    if yr.length < 4 then none
    else some (letters ++ ws1 ++ dayDs ++ [','] ++ ws2 ++ yr.take 4)

/-- Attempt `([A-Za-z]+\s+\d{1,2},\s+\d{4})` at the start of `t`, the text
following the literal `"stated on "`.  The day takes two digits when a comma
follows them, else one digit when a comma follows it (the regex engine's
greedy match with backtracking). -/
def parseAfterStated (t : List Char) : Option (List Char) :=
  let letters := t.takeWhile Char.isAlpha
  if letters.isEmpty then none
  else
    let t1 := t.drop letters.length
    let ws1 := t1.takeWhile isSpaceChar
    if ws1.isEmpty then none
    else
      match t1.drop ws1.length with
      | d1 :: ',' :: r3 =>
        if d1.isDigit then finishDate letters ws1 [d1] r3 else none
      | d1 :: d2 :: ',' :: r3 =>
        if d1.isDigit && d2.isDigit then finishDate letters ws1 [d1, d2] r3 else none
      | _ => none

/-- `re.search(r"stated on ([A-Za-z]+\s+\d{1,2},\s+\d{4})", text)`: try each
start position left to right, returning the first full match's capture. -/
def searchStatedOn : List Char → Option (List Char)
  | [] => none
  | c :: rest =>
    if startsWithL (ltoList "stated on ") (c :: rest) then
      match parseAfterStated ((c :: rest).drop 10) with
      | some cap => some cap
      | none => searchStatedOn rest
    else searchStatedOn rest

def bulletChar : Char := Char.ofNat 8226

/-- Attempt `\s+([^•]+)` at the start of `t` (the text after a literal
`By`), with the engine's greedy backtracking: the whitespace run feeds
`\s+` and the capture is the following run of non-bullet characters; when
only the run's end is available, `\s+` gives back its last character
(whitespace is itself non-bullet) provided the run has length ≥ 2. -/
def matchByTail (t : List Char) : Option (List Char) :=
  let ws := t.takeWhile isSpaceChar
  if ws.isEmpty then none
  else
    match t.drop ws.length with
    | [] => if 2 ≤ ws.length then some [(ws.getLast?).getD ' '] else none
    | c :: rest =>
      if c == bulletChar then
        if 2 ≤ ws.length then some [(ws.getLast?).getD ' '] else none
      else
        some ((c :: rest).takeWhile (fun x => x != bulletChar))

/-- `re.search(r"By\s+([^•]+)", footer_text)`: first start position whose
full pattern matches wins; `none` when no position matches (in which case
line 119's `.group(1)` raises `AttributeError`). -/
def searchByAuthor : List Char → Option (List Char)
  | [] => none
  | c :: rest =>
    if c == 'B' then
      match rest with
      | 'y' :: t =>
        match matchByTail t with
        | some cap => some cap
        | none => searchByAuthor rest
      | _ => searchByAuthor rest
    else searchByAuthor rest

/-- Python `str.title()`: upper-case a letter not preceded by a letter,
lower-case one that is (digits and symbols are uncased separators). -/
def titleAux : Bool → List Char → List Char
  | _, [] => []
  | prevAlpha, c :: rest =>
    (if c.isAlpha then (if prevAlpha then c.toLower else c.toUpper) else c)
      :: titleAux c.isAlpha rest

/-- `label_img["alt"].replace("-", " ").title()`. -/
def labelOfAlt (alt : List Char) : List Char :=
  titleAux false (alt.map (fun c => if c == '-' then ' ' else c))

/-- One `li.o-listicle__item` card, as far as the scraper reads it: the
text of its date block (`div.m-statement__desc`), of its quote link
(`div.m-statement__quote a`, with `get_text(strip=True)` applied), of its
source link, its footer's raw text, and the `alt` of its first image
carrying one; `none` models a missing element. -/
structure Card where
  dateText : Option (List Char)
  statementText : Option (List Char)
  sourceText : Option (List Char)
  footerText : Option (List Char)
  imgAlt : Option (List Char)
  deriving DecidableEq

/-- One CSV row of the output table (the CSV stores the date as its
`YYYY-MM-DD` rendering; the calendar value is kept here). -/
structure Row where
  author : Option (List Char)
  statement : List Char
  source : Option (List Char)
  date : PDate
  label : Option (List Char)
  deriving DecidableEq

inductive PyFault where
  | attributeError
  deriving DecidableEq

/-- Effect of one card on the scan: skip it, emit a row, or (date strictly
below `start_date`) set `next_page = None` and break the card loop. -/
inductive CardStep where
  | skip
  | stopPage
  | emit (r : Row)
  deriving DecidableEq

/-- Body of the card loop (final.py lines 94-125) for one card.  The only
fault is the uncaught `AttributeError` from line 119 when a footer element
is present but its text has no `By\s+([^•]+)` match; it fires even when the
statement is missing, because the author is extracted before the
`if statement:` test. -/
def processCard (startD endD : PDate) (c : Card) : Except PyFault CardStep :=
  match c.dateText with
  | none => Except.ok CardStep.skip
  | some txt =>
    match searchStatedOn txt with
    | none => Except.ok CardStep.skip
    | some cap =>
      match to_datetime cap with
      | none => Except.ok CardStep.skip
      | some d =>
        if d.code < startD.code then Except.ok CardStep.stopPage
        else if !(startD.code ≤ d.code && d.code ≤ endD.code) then Except.ok CardStep.skip
        else
          match (match c.footerText with
                 | none => Except.ok none
                 | some ft =>
                   match searchByAuthor ft with
                   | none => Except.error PyFault.attributeError
                   | some capA => Except.ok (some (stripWS capA))) with
          | Except.error e => Except.error e
          | Except.ok author =>
            match c.statementText with
            | some stmt =>
              if stmt.isEmpty then Except.ok CardStep.skip
              else
                Except.ok (CardStep.emit
                  ⟨author, stmt, c.sourceText, d, (c.imgAlt).map labelOfAlt⟩)
            | none => Except.ok CardStep.skip

/-- The `for card in soup.select(...)` loop: the rows written on this page,
in order, and whether the loop broke out after `next_page = None`. -/
def processCards (startD endD : PDate) : List Card → Except PyFault (List Row × Bool)
  | [] => Except.ok ([], false)
  | c :: rest =>
    match processCard startD endD c with
    | Except.error e => Except.error e
    | Except.ok CardStep.stopPage => Except.ok ([], true)
    | Except.ok CardStep.skip => processCards startD endD rest
    | Except.ok (CardStep.emit r) =>
      match processCards startD endD rest with
      | Except.error e => Except.error e
      | Except.ok (rows, st) => Except.ok (r :: rows, st)

/-- Outcome of `session.get` + `BeautifulSoup` for one listing page: the
parsed cards and whether a "Next" pagination link is present, or a fetch
failure.  Pages are indexed by their position in the chain of "Next" links
(concrete URLs are opaque to every property here). -/
inductive PageFetch where
  | ok (cards : List Card) (hasNext : Bool)
  | fetchError (msg : List Char)

/-- The `while next_page and page_count < 40` loop (final.py lines 83-129),
paired with the number of fetches performed.  Faithful detail of lines
127-128: `next_page` is unconditionally recomputed from the page's "Next"
link after the card loop, so the `next_page = None` assigned on a
below-range date (line 109) is overwritten, and pagination continues
whenever a "Next" link exists.  A fetch failure breaks the loop keeping the
rows accumulated so far; an `AttributeError` propagates. -/
def scrapeLoop (site : Nat → PageFetch) (startD endD : PDate) :
    Nat → Nat → Except PyFault (List Row) × Nat
  | 0, _ => (Except.ok [], 0)
  | fuel + 1, idx =>
    match site idx with
    | PageFetch.fetchError _ => (Except.ok [], 1)
    | PageFetch.ok cards hasNext =>
      match processCards startD endD cards with
      | Except.error e => (Except.error e, 1)
      | Except.ok (rows, _stopped) =>
        if hasNext then
          match scrapeLoop site startD endD fuel (idx + 1) with
          | (Except.ok more, n) => (Except.ok (rows ++ more), n + 1)
          | (Except.error e, n) => (Except.error e, n + 1)
        else (Except.ok rows, 1)

/-- `scrape_politifact(start_date, end_date)`: the rows of the returned
table (`dropna(subset=["statement"])` drops nothing, as only rows with a
non-empty statement are ever written). -/
def scrape_politifact (site : Nat → PageFetch) (startD endD : PDate) :
    Except PyFault (List Row) :=
  (scrapeLoop site startD endD 40 0).1

/-- Number of page fetches the same run performs. -/
def scrapePages (site : Nat → PageFetch) (startD endD : PDate) : Nat :=
  (scrapeLoop site startD endD 40 0).2

/-! ## Verdict aggregator (`show_results`)

The pandas floats are modelled as exact rationals; `.round(1)` is numpy's
round-half-to-even. -/

/-- numpy rounding of a rational to the nearest integer, ties to even. -/
def roundHalfEven (q : ℚ) : ℤ :=
  if q - ⌊q⌋ < 1 / 2 then ⌊q⌋
  else if 1 / 2 < q - ⌊q⌋ then ⌊q⌋ + 1
  else if ⌊q⌋ % 2 = 0 then ⌊q⌋ else ⌊q⌋ + 1

/-- pandas `.round(1)`: round to one decimal place. -/
def round1 (q : ℚ) : ℚ :=
  (roundHalfEven (q * 10) : ℚ) / 10

/-- Number of rows whose column value equals `v`. -/
def countOccur (v : List Char) (xs : List (List Char)) : Nat :=
  (xs.filter (fun x => x == v)).length

/-- The column's distinct values, in first-occurrence order (`value_counts`
additionally sorts by descending frequency; no property here depends on the
order of the resulting series). -/
def distinctVals (xs : List (List Char)) : List (List Char) :=
  xs.foldl (fun acc x => if acc.contains x then acc else acc ++ [x]) []

/-- `df["google_verdict"].value_counts(normalize=True)`. -/
def value_counts_normalize (xs : List (List Char)) : List (List Char × ℚ) :=
  (distinctVals xs).map (fun v => (v, (countOccur v xs : ℚ) / (xs.length : ℚ)))

/-- `.mul(100).round(1)` applied to the normalized counts: the series the
bar chart of `show_results` renders (final.py line 159). -/
def verdict_percentages (xs : List (List Char)) : List (List Char × ℚ) :=
  (value_counts_normalize xs).map (fun p => (p.1, round1 (p.2 * 100)))

/-! ## Batch verification driver (`verify_all`) -/

/-- A `pandas.DataFrame`: ordered association of column name to column
values (all columns of a well-formed frame share the row count's length). -/
structure DataFrame where
  cols : List (List Char × List PyVal)
  deriving DecidableEq

/-- `len(df)`. -/
def rowCount (df : DataFrame) : Nat :=
  match df.cols with
  | [] => 0
  | c :: _ => c.2.length

/-- `df[name] = vals`: replace the column's values when the name already
exists, else append a new column at the end. -/
def setCol (df : DataFrame) (name : List Char) (vals : List PyVal) : DataFrame :=
  match df.cols.lookup name with
  | some _ => ⟨df.cols.map (fun p => if p.1 == name then (p.1, vals) else p)⟩
  | none => ⟨df.cols ++ [(name, vals)]⟩

/-- A column cell holding an optional string (`None` for absent). -/
def optPyStr : Option (List Char) → PyVal
  | some s => PyVal.str s
  | none => PyVal.noneVal

/-- One iteration of the driver's loop: verify one row's statement. -/
def rowResult (apiKey : Option (List Char)) (net : PyVal → HTTPOutcome)
    (st : PyVal) : VerificationResult :=
  get_fact_check_result apiKey st (net st)

/-- The four `df[...] = [...]` assignments of final.py lines 148-151. -/
def assignResults (df : DataFrame) (results : List VerificationResult) : DataFrame :=
  setCol (setCol (setCol (setCol df (ltoList "google_verdict")
    (results.map (fun r => PyVal.str r.verdict)))
    (ltoList "publisher") (results.map (fun r => optPyStr r.publisher)))
    (ltoList "google_rating") (results.map (fun r => optPyStr r.rating)))
    (ltoList "fact_url") (results.map (fun r => optPyStr r.url))

/-- `verify_all(df)` (final.py lines 139-152): verify each row's
`row.statement` in row order, then assign the four result columns.  A
non-empty frame without a `statement` column raises `AttributeError` at
`row.statement`; on an empty frame the loop body never runs and the four
columns are assigned empty. -/
def verify_all (apiKey : Option (List Char)) (net : PyVal → HTTPOutcome)
    (df : DataFrame) : Except PyFault DataFrame :=
  if rowCount df = 0 then
    Except.ok (assignResults df [])
  else
    match df.cols.lookup (ltoList "statement") with
    | none => Except.error PyFault.attributeError
    | some stmts => Except.ok (assignResults df (stmts.map (rowResult apiKey net)))

/-! ## Helper lemmas -/

theorem specClassifyFlat_eq_scanReviews (l : List Review) :
    specClassifyFlat l = (scanReviews l).getD unverifiedResult := by
  induction l with
  | nil => rfl
  | cons r rest ih =>
    by_cases h1 : containsAnyKw (lowerL (r.textualRating.getD [])) falseKeywords = true
    · simp [specClassifyFlat, scanReviews, classifyReview, h1]
    · by_cases h2 : containsAnyKw (lowerL (r.textualRating.getD [])) trueKeywords = true
      · simp [specClassifyFlat, scanReviews, classifyReview, h1, h2]
      · simp [specClassifyFlat, scanReviews, classifyReview, h1, h2, ih]

theorem scanReviews_append (a b : List Review) :
    scanReviews (a ++ b) =
      match scanReviews a with
      | some v => some v
      | none => scanReviews b := by
  induction a with
  | nil => simp [scanReviews]
  | cons r rest ih =>
    simp only [List.cons_append, scanReviews]
    cases classifyReview r <;> simp [ih]

theorem scanClaims_eq_flat (cs : List Claim) :
    scanClaims cs = scanReviews (cs.map Claim.claimReview).flatten := by
  induction cs with
  | nil => rfl
  | cons c rest ih =>
    simp only [List.map_cons, List.flatten_cons, scanClaims, scanReviews_append, ih]

/-! ## Claims -/

/-- C1: for every successful API response (key configured, normalized query
non-empty), the verifier's nested claim/review loops compute exactly the
spec's first-match scan over the reviews of all claims flattened in API
order (lower-cased rating; false keywords before true keywords; the first
matching review's publisher and url; "Unverified" when nothing matches).
In particular "Mostly True" yields "True", "Pants on Fire" yields "False",
"Unsubstantiated" yields "Unverified", and a first review containing
"false" wins regardless of a later true-like review. -/
theorem get_fact_check_result_first_match (apiKey : Option (List Char))
    (stmt : PyVal) (claims : List Claim)
    (hk : keyMissing apiKey = false)
    (hq : (clean_text stmt).isEmpty = false) :
    get_fact_check_result apiKey stmt (HTTPOutcome.success claims) =
      specClassifyFlat (claims.map Claim.claimReview).flatten ∧
    (get_fact_check_result apiKey stmt (HTTPOutcome.success
        [⟨[⟨some (ltoList "Mostly True"), some (ltoList "P1"), some (ltoList "u1")⟩]⟩])).verdict
      = ltoList "True" ∧
    (get_fact_check_result apiKey stmt (HTTPOutcome.success
        [⟨[⟨some (ltoList "Pants on Fire"), some (ltoList "P2"), some (ltoList "u2")⟩]⟩])).verdict
      = ltoList "False" ∧
    (get_fact_check_result apiKey stmt (HTTPOutcome.success
        [⟨[⟨some (ltoList "Unsubstantiated"), some (ltoList "P3"), some (ltoList "u3")⟩]⟩])).verdict
      = ltoList "Unverified" ∧
    get_fact_check_result apiKey stmt (HTTPOutcome.success
        [⟨[⟨some (ltoList "This is false"), some (ltoList "PF"), some (ltoList "uF")⟩,
           ⟨some (ltoList "True"), some (ltoList "PT"), some (ltoList "uT")⟩]⟩])
      = ⟨ltoList "False", some (ltoList "PF"), some (lowerL (ltoList "This is false")),
          some (ltoList "uF")⟩ := by
  refine ⟨?_, ?_, ?_, ?_, ?_⟩
  · simp only [get_fact_check_result, hk, hq, Bool.false_eq_true, if_false]
    rw [scanClaims_eq_flat, specClassifyFlat_eq_scanReviews]
  all_goals
    simp only [get_fact_check_result, hk, hq, Bool.false_eq_true, if_false]
    decide

/-- C1 witness: the refinement instantiated at a concrete key, statement and
response. -/
theorem get_fact_check_result_first_match_witness :
    get_fact_check_result (some (ltoList "k")) (PyVal.str (ltoList "hello"))
        (HTTPOutcome.success []) =
      specClassifyFlat (([] : List Claim).map Claim.claimReview).flatten :=
  (get_fact_check_result_first_match (some (ltoList "k"))
    (PyVal.str (ltoList "hello")) [] (by decide) (by decide)).1

/-- C4: the verifier's degraded and error paths are fixed values: missing
credential yields "API Key Missing" with null fields; an empty normalized
query yields "Unverified" with null fields; a request exception yields
"API Error" with the error's description in the rating field and null
publisher/url.  The embedding is a total function, so none of these paths
raises. -/
theorem get_fact_check_result_degraded (apiKey : Option (List Char))
    (stmt : PyVal) (net : HTTPOutcome) (msg : List Char) :
    (keyMissing apiKey = true →
      get_fact_check_result apiKey stmt net =
        ⟨ltoList "API Key Missing", none, none, none⟩) ∧
    (keyMissing apiKey = false → clean_text stmt = [] →
      get_fact_check_result apiKey stmt net =
        ⟨ltoList "Unverified", none, none, none⟩) ∧
    (keyMissing apiKey = false → clean_text stmt ≠ [] →
      get_fact_check_result apiKey stmt (HTTPOutcome.error msg) =
        ⟨ltoList "API Error", none, some msg, none⟩) := by
  refine ⟨fun hk => ?_, fun hk hq => ?_, fun hk hq => ?_⟩
  · simp [get_fact_check_result, hk]
  · cases net <;> simp [get_fact_check_result, hk, hq]
  · have hq2 : (clean_text stmt).isEmpty = false := by
      cases h : clean_text stmt with
      | nil => exact absurd h hq
      | cons a l => rfl
    simp [get_fact_check_result, hk, hq2]

/-- C4 witness: each degraded path at a concrete input. -/
theorem get_fact_check_result_degraded_witness :
    get_fact_check_result none PyVal.noneVal (HTTPOutcome.success []) =
      ⟨ltoList "API Key Missing", none, none, none⟩ ∧
    get_fact_check_result (some (ltoList "k")) (PyVal.num 3) (HTTPOutcome.success []) =
      ⟨ltoList "Unverified", none, none, none⟩ ∧
    get_fact_check_result (some (ltoList "k")) (PyVal.str (ltoList "x"))
        (HTTPOutcome.error (ltoList "boom")) =
      ⟨ltoList "API Error", none, some (ltoList "boom"), none⟩ :=
  ⟨(get_fact_check_result_degraded none PyVal.noneVal
      (HTTPOutcome.success []) []).1 (by decide),
   (get_fact_check_result_degraded (some (ltoList "k")) (PyVal.num 3)
      (HTTPOutcome.success []) []).2.1 (by decide) (by decide),
   (get_fact_check_result_degraded (some (ltoList "k")) (PyVal.str (ltoList "x"))
      (HTTPOutcome.success []) (ltoList "boom")).2.2 (by decide) (by decide)⟩

/-- C5: the text normalizer is total: it is a function on every `PyVal`,
its output never exceeds 250 characters, and every non-string input maps to
the empty string. -/
theorem clean_text_total (v : PyVal) :
    (clean_text v).length ≤ 250 ∧ (v.isStr = false → clean_text v = []) := by
  constructor
  · cases v with
    | str s => exact List.length_take_le 250 (stripWS (collapseWS (removePunct s)))
    | num n => simp [clean_text]
    | noneVal => simp [clean_text]
  · cases v with
    | str s => intro h; simp [PyVal.isStr] at h
    | num n => intro _; rfl
    | noneVal => intro _; rfl

/-- C5 witness: a numeric input yields the empty string (a string of length
at most 250). -/
theorem clean_text_total_witness :
    (clean_text (PyVal.num 5)).length ≤ 250 ∧ clean_text (PyVal.num 5) = [] :=
  ⟨(clean_text_total (PyVal.num 5)).1, (clean_text_total (PyVal.num 5)).2 rfl⟩

theorem scrapeLoop_count_le (site : Nat → PageFetch) (s e : PDate) :
    ∀ (fuel idx : Nat), (scrapeLoop site s e fuel idx).2 ≤ fuel := by
  intro fuel
  induction fuel with
  | zero => intro idx; simp [scrapeLoop]
  | succ n ih =>
    intro idx
    simp only [scrapeLoop]
    cases site idx with
    | fetchError m => simp
    | ok cards hasNext =>
      dsimp only
      cases hp : processCards s e cards with
      | error e2 => simp
      | ok pr =>
        obtain ⟨rows, st⟩ := pr
        cases hasNext with
        | false => simp
        | true =>
          have h := ih (idx + 1)
          cases hrec : scrapeLoop site s e n (idx + 1) with
          | mk res cnt =>
            rw [hrec] at h
            cases res <;> simp <;> omega

/-- One loop iteration on a page whose card loop finishes and whose "Next"
link is present: recurse on the following page index. -/
theorem scrapeLoop_step_next (site : Nat → PageFetch) (s e : PDate)
    (fuel idx : Nat) (cards : List Card) (rows : List Row) (st : Bool)
    (hsite : site idx = PageFetch.ok cards true)
    (hp : processCards s e cards = Except.ok (rows, st)) :
    scrapeLoop site s e (fuel + 1) idx =
      (match scrapeLoop site s e fuel (idx + 1) with
       | (Except.ok more, n) => (Except.ok (rows ++ more), n + 1)
       | (Except.error e2, n) => (Except.error e2, n + 1)) := by
  conv_lhs => rw [scrapeLoop]
  rw [hsite]
  simp [hp]

/-- One loop iteration on a page whose card loop finishes and whose "Next"
link is absent: the loop ends with this single fetch. -/
theorem scrapeLoop_step_last (site : Nat → PageFetch) (s e : PDate)
    (fuel idx : Nat) (cards : List Card) (rows : List Row) (st : Bool)
    (hsite : site idx = PageFetch.ok cards false)
    (hp : processCards s e cards = Except.ok (rows, st)) :
    scrapeLoop site s e (fuel + 1) idx = (Except.ok rows, 1) := by
  conv_lhs => rw [scrapeLoop]
  rw [hsite]
  simp [hp]

/-- C6: pagination always terminates within the 40-page cap, and a page
without a "Next" link ends it at once: on a 2-page site whose second page
has no "Next" link (and whose card loops finish normally), exactly 2 pages
are fetched and the run returns both pages' rows. -/
theorem scrape_politifact_terminates (site : Nat → PageFetch) (startD endD : PDate)
    (c0 c1 : List Card) (r0 r1 : List Row) (st0 st1 : Bool)
    (h0 : site 0 = PageFetch.ok c0 true)
    (h1 : site 1 = PageFetch.ok c1 false)
    (p0 : processCards startD endD c0 = Except.ok (r0, st0))
    (p1 : processCards startD endD c1 = Except.ok (r1, st1)) :
    (∀ (site2 : Nat → PageFetch) (s2 e2 : PDate), scrapePages site2 s2 e2 ≤ 40) ∧
    scrapePages site startD endD = 2 ∧
    scrape_politifact site startD endD = Except.ok (r0 ++ r1) := by
  have run : scrapeLoop site startD endD 40 0 = (Except.ok (r0 ++ r1), 2) := by
    rw [show (40 : Nat) = 39 + 1 from rfl,
      scrapeLoop_step_next site startD endD 39 0 c0 r0 st0 h0 p0,
      show (39 : Nat) = 38 + 1 from rfl,
      scrapeLoop_step_last site startD endD 38 (0 + 1) c1 r1 st1 (by rw [Nat.zero_add]; exact h1) p1]
  refine ⟨fun site2 s2 e2 => scrapeLoop_count_le site2 s2 e2 40 0, ?_, ?_⟩
  · simp [scrapePages, run]
  · simp [scrape_politifact, run]

/-- A 2-page site with empty listings, for the C6 witness. -/
def twoPageSite : Nat → PageFetch := fun n =>
  if n == 0 then PageFetch.ok [] true
  else if n == 1 then PageFetch.ok [] false
  else PageFetch.fetchError []

/-- C6 witness: the 2-page run instantiated concretely. -/
theorem scrape_politifact_terminates_witness :
    scrapePages twoPageSite ⟨2024, 1, 1⟩ ⟨2024, 1, 31⟩ = 2 ∧
    scrape_politifact twoPageSite ⟨2024, 1, 1⟩ ⟨2024, 1, 31⟩ = Except.ok [] :=
  ⟨(scrape_politifact_terminates twoPageSite ⟨2024, 1, 1⟩ ⟨2024, 1, 31⟩
      [] [] [] [] false false rfl rfl rfl rfl).2.1,
   (scrape_politifact_terminates twoPageSite ⟨2024, 1, 1⟩ ⟨2024, 1, 31⟩
      [] [] [] [] false false rfl rfl rfl rfl).2.2⟩

/-- Page-0 card dated below the requested range (January 5, 2023). -/
def c2Card0 : Card :=
  ⟨some (ltoList "stated on January 5, 2023 in a speech"),
   some (ltoList "Old claim"), none, none, none⟩

/-- Page-1 card dated inside the requested range (January 10, 2024). -/
def c2Card1 : Card :=
  ⟨some (ltoList "stated on January 10, 2024 in a post"),
   some (ltoList "New claim"), none, none, none⟩

/-- A 2-page reverse-chronology violating site: page 0 already holds an item
older than `start_date` yet advertises a "Next" link to page 1. -/
def c2Site : Nat → PageFetch := fun n =>
  if n == 0 then PageFetch.ok [c2Card0] true
  else if n == 1 then PageFetch.ok [c2Card1] false
  else PageFetch.fetchError []

def c2Start : PDate := ⟨2024, 1, 1⟩

def c2End : PDate := ⟨2024, 1, 31⟩

/-- C2 (code bug): the below-`start_date` item does break the card loop
mid-page (the page yields no rows and the stopped flag), but pagination
does NOT halt: `next_page` is recomputed from the "Next" link on lines
127-128, so page 1 is fetched and its in-range row is returned.  The
`next_page = None` of line 109 is a dead store. -/
theorem scrape_politifact_continues_after_old_item :
    processCards c2Start c2End [c2Card0] = Except.ok ([], true) ∧
    scrapePages c2Site c2Start c2End = 2 ∧
    scrape_politifact c2Site c2Start c2End =
      Except.ok [⟨none, ltoList "New claim", none, ⟨2024, 1, 10⟩, none⟩] := by
  exact ⟨rfl, rfl, rfl⟩

/-- An in-range card whose footer element exists but whose text contains no
`By <name>` pattern. -/
def c3Card : Card :=
  ⟨some (ltoList "stated on January 10, 2024 in a post"),
   some (ltoList "Some claim"), none, some (ltoList "no attribution"), none⟩

def c3Site : Nat → PageFetch := fun _ => PageFetch.ok [c3Card] false

/-- C3 (code bug): on a footer whose text has no `By\s+([^•]+)` match,
line 119's `.group(1)` raises an uncaught `AttributeError`, which
propagates out of `scrape_politifact` to the caller — the collector does
not silently skip this parse failure and this failure path returns no
value. -/
theorem scrape_politifact_raises_on_footer :
    processCard c2Start c2End c3Card = Except.error PyFault.attributeError ∧
    scrape_politifact c3Site c2Start c2End = Except.error PyFault.attributeError := by
  exact ⟨rfl, rfl⟩

/-- First character is whitespace. -/
def headIsWS : List Char → Bool
  | [] => false
  | c :: _ => isSpaceChar c

/-- Last character is whitespace. -/
def lastIsWS (s : List Char) : Bool :=
  headIsWS s.reverse

/-- No two adjacent whitespace characters, i.e. no whitespace run longer
than one character. -/
def noAdjacentWS : List Char → Bool
  | [] => true
  | [_] => true
  | a :: b :: rest => !(isSpaceChar a && isSpaceChar b) && noAdjacentWS (b :: rest)

/-- A string satisfying the claim's literal side conditions (length ≤ 250,
no stripped punctuation, no leading/trailing whitespace, no whitespace run
longer than one character) that `clean_text` nevertheless changes: its lone
tab is rewritten to a plain space. -/
def c7Bad : List Char := ['a', '\t', 'b']

theorem noAdjacentWS_cons (c : Char) (rest : List Char)
    (h : noAdjacentWS (c :: rest) = true) :
    noAdjacentWS rest = true ∧ (isSpaceChar c = true → headIsWS rest = false) := by
  cases rest with
  | nil => exact ⟨rfl, fun _ => rfl⟩
  | cons d r2 =>
    simp only [noAdjacentWS, Bool.and_eq_true] at h
    refine ⟨h.2, fun hc => ?_⟩
    have h1 := h.1
    simp only [headIsWS]
    cases hd : isSpaceChar d with
    | false => rfl
    | true => rw [hc, hd] at h1; simp at h1

theorem collapseAux_fixed : ∀ (s : List Char),
    (∀ c ∈ s, isSpaceChar c = true → c = ' ') →
    noAdjacentWS s = true →
    ∀ b : Bool, (b = true → headIsWS s = false) →
    collapseAux b s = s := by
  intro s
  induction s with
  | nil => intro _ _ b _; cases b <;> rfl
  | cons c rest ih =>
    intro hchar hadj b hb
    have hrest := noAdjacentWS_cons c rest hadj
    have ihrest := ih (fun x hx => hchar x (List.mem_cons_of_mem c hx)) hrest.1
    cases hws : isSpaceChar c with
    | false =>
      simp only [collapseAux, hws, Bool.false_eq_true, if_false]
      rw [ihrest false (fun hbf => absurd hbf (by simp))]
    | true =>
      have hb2 : b = false := by
        cases b with
        | false => rfl
        | true =>
          have hh := hb rfl
          simp only [headIsWS, hws] at hh
          exact hh
      subst hb2
      have hsp : c = ' ' := hchar c (List.mem_cons_self c rest) hws
      simp only [collapseAux, hws, if_true, Bool.false_eq_true, if_false]
      rw [ihrest true (fun _ => hrest.2 hws), hsp]

theorem dropWhile_id_of_head (s : List Char) (h : headIsWS s = false) :
    s.dropWhile isSpaceChar = s := by
  cases s with
  | nil => rfl
  | cons c r =>
    simp only [headIsWS] at h
    simp [List.dropWhile_cons, h]

theorem stripWS_id (s : List Char) (hh : headIsWS s = false)
    (hl : lastIsWS s = false) : stripWS s = s := by
  unfold stripWS
  rw [dropWhile_id_of_head s hh, dropWhile_id_of_head s.reverse hl,
    List.reverse_reverse]

/-- C7 counterexample: `['a', tab, 'b']` meets every condition of the claim
as stated — length ≤ 250, none of the stripped punctuation characters, no
leading or trailing whitespace, and no whitespace run longer than one
character — yet normalizing it changes it (the tab becomes a space), so the
claimed idempotence fails. -/
theorem clean_text_changes_tab_input :
    c7Bad.length ≤ 250 ∧
    c7Bad.all (fun c => !(strippedChars.contains c)) = true ∧
    noAdjacentWS c7Bad = true ∧
    headIsWS c7Bad = false ∧
    lastIsWS c7Bad = false ∧
    clean_text (PyVal.str c7Bad) ≠ c7Bad := by decide

/-- C7 (amended): the normalizer is the identity on strings of length at
most 250 that contain no stripped punctuation character, whose whitespace
characters are all the plain space, with no two adjacent spaces and no
leading or trailing whitespace.  (The amendment strengthens "no whitespace
run longer than one space" to "every whitespace character is a plain
space", which the tab counterexample forces.) -/
theorem clean_text_idempotent_on_normalized (s : List Char)
    (hlen : s.length ≤ 250)
    (hchar : s.all (fun c => !(strippedChars.contains c) &&
      (!isSpaceChar c || c == ' ')) = true)
    (hadj : noAdjacentWS s = true)
    (hhead : headIsWS s = false)
    (hlast : lastIsWS s = false) :
    clean_text (PyVal.str s) = s := by
  have hall := List.all_eq_true.mp hchar
  have hfilter : removePunct s = s := by
    apply List.filter_eq_self.mpr
    intro a ha
    have h2 := hall a ha
    simp only [Bool.and_eq_true] at h2
    exact h2.1
  have hspace : ∀ c ∈ s, isSpaceChar c = true → c = ' ' := by
    intro a ha hws
    have h2 := hall a ha
    simp only [Bool.and_eq_true] at h2
    have h3 := h2.2
    rw [hws] at h3
    simpa using h3
  have hcollapse : collapseWS s = s :=
    collapseAux_fixed s hspace hadj false (fun hbf => absurd hbf (by simp))
  have hstrip : stripWS s = s := stripWS_id s hhead hlast
  show (stripWS (collapseWS (removePunct s))).take 250 = s
  rw [hfilter, hcollapse, hstrip]
  exact List.take_of_length_le hlen

/-- C7 witness: the amended idempotence at a concrete normalized string. -/
theorem clean_text_idempotent_witness :
    clean_text (PyVal.str (ltoList "Hello world")) = ltoList "Hello world" :=
  clean_text_idempotent_on_normalized (ltoList "Hello world")
    (by decide) (by decide) (by decide) (by decide) (by decide)

theorem mem_foldl_distinct (xs : List (List Char)) :
    ∀ (acc : List (List Char)) (v : List Char), (v ∈ acc ∨ v ∈ xs) →
      v ∈ xs.foldl (fun a x => if a.contains x then a else a ++ [x]) acc := by
  induction xs with
  | nil =>
    intro acc v h
    rcases h with h | h
    · simpa using h
    · simp at h
  | cons x rest ih =>
    intro acc v h
    rw [List.foldl_cons]
    apply ih
    by_cases hc : acc.contains x = true
    · rw [if_pos hc]
      rcases h with h | h
      · exact Or.inl h
      · rcases List.mem_cons.mp h with rfl | h2
        · exact Or.inl (List.elem_iff.mp hc)
        · exact Or.inr h2
    · rw [if_neg hc]
      rcases h with h | h
      · exact Or.inl (List.mem_append_left _ h)
      · rcases List.mem_cons.mp h with rfl | h2
        · exact Or.inl (List.mem_append_right _ (by simp))
        · exact Or.inr h2

theorem mem_distinctVals (xs : List (List Char)) (v : List Char) (hv : v ∈ xs) :
    v ∈ distinctVals xs :=
  mem_foldl_distinct xs [] v (Or.inr hv)

theorem lookup_map_pair (f : List Char → ℚ) :
    ∀ (l : List (List Char)) (v : List Char), v ∈ l →
      ((l.map (fun x => (x, f x))).lookup v) = some (f v) := by
  intro l
  induction l with
  | nil => intro v hv; simp at hv
  | cons x rest ih =>
    intro v hv
    by_cases hvx : v = x
    · subst hvx
      simp [List.lookup_cons]
    · have hb : (v == x) = false := beq_eq_false_iff_ne.mpr hvx
      simp only [List.map_cons, List.lookup_cons, hb]
      exact ih v (by
        rcases List.mem_cons.mp hv with h | h
        · exact absurd h hvx
        · exact h)

/-- C8: for every verdict column, the rendered series assigns each distinct
value the share `count / total * 100`, rounded to one decimal place; on the
column `[True, True, False, Unverified]` this yields True = 50.0,
False = 25.0, Unverified = 25.0.  (pandas floats are modelled as exact
rationals, `.round(1)` as round-half-to-even.) -/
theorem verdict_percentages_spec (xs : List (List Char)) (v : List Char)
    (hv : v ∈ xs) :
    (verdict_percentages xs).lookup v =
      some (round1 ((countOccur v xs : ℚ) / (xs.length : ℚ) * 100)) ∧
    verdict_percentages
        [ltoList "True", ltoList "True", ltoList "False", ltoList "Unverified"] =
      [(ltoList "True", 50), (ltoList "False", 25), (ltoList "Unverified", 25)] := by
  constructor
  · unfold verdict_percentages value_counts_normalize
    rw [List.map_map]
    exact lookup_map_pair
      (fun x => round1 ((countOccur x xs : ℚ) / (xs.length : ℚ) * 100))
      (distinctVals xs) v (mem_distinctVals xs v hv)
  · have hd : distinctVals
        [ltoList "True", ltoList "True", ltoList "False", ltoList "Unverified"] =
        [ltoList "True", ltoList "False", ltoList "Unverified"] := by decide
    have hcT : countOccur (ltoList "True")
        [ltoList "True", ltoList "True", ltoList "False", ltoList "Unverified"] = 2 := by decide
    have hcF : countOccur (ltoList "False")
        [ltoList "True", ltoList "True", ltoList "False", ltoList "Unverified"] = 1 := by decide
    have hcU : countOccur (ltoList "Unverified")
        [ltoList "True", ltoList "True", ltoList "False", ltoList "Unverified"] = 1 := by decide
    unfold verdict_percentages value_counts_normalize
    rw [hd]
    simp only [List.map_cons, List.map_nil, hcT, hcF, hcU, List.length_cons,
      List.length_nil]
    norm_num [round1, roundHalfEven]

/-- C8 witness: the share of "True" in the concrete column, through the
general statement. -/
theorem verdict_percentages_spec_witness :
    (verdict_percentages
        [ltoList "True", ltoList "True", ltoList "False", ltoList "Unverified"]).lookup
        (ltoList "True") =
      some (round1 ((countOccur (ltoList "True")
          [ltoList "True", ltoList "True", ltoList "False", ltoList "Unverified"] : ℚ) /
        (([ltoList "True", ltoList "True", ltoList "False",
            ltoList "Unverified"] : List (List Char)).length : ℚ) * 100)) :=
  (verdict_percentages_spec
    [ltoList "True", ltoList "True", ltoList "False", ltoList "Unverified"]
    (ltoList "True") (by decide)).1

/-- A string whose cleaned form is 251 characters with a space at index
249, so truncation to 250 leaves a trailing space. -/
def c9Input : List Char := List.replicate 249 'a' ++ [' ', 'b']

set_option maxRecDepth 40000 in
/-- C9: the truncation is applied after trimming and collapsing, so the
normalizer is not idempotent in general: on `c9Input` the first application
returns 250 characters ending in a space, and a second application strips
that space and returns a strictly shorter string. -/
theorem clean_text_truncation_not_idempotent :
    (clean_text (PyVal.str c9Input)).length = 250 ∧
    (clean_text (PyVal.str c9Input)).getLast? = some ' ' ∧
    clean_text (PyVal.str (clean_text (PyVal.str c9Input))) ≠
      clean_text (PyVal.str c9Input) ∧
    (clean_text (PyVal.str (clean_text (PyVal.str c9Input)))).length <
      (clean_text (PyVal.str c9Input)).length := by decide

theorem setCol_append (df : DataFrame) (name : List Char) (vals : List PyVal)
    (h : df.cols.lookup name = none) :
    setCol df name vals = ⟨df.cols ++ [(name, vals)]⟩ := by
  unfold setCol
  rw [h]

theorem lookup_extend {β : Type} (l : List (List Char × β)) (k n : List Char)
    (v : β) (hk : l.lookup k = none) (hne : (k == n) = false) :
    (l ++ [(n, v)]).lookup k = none := by
  rw [List.lookup_append, hk]
  simp [List.lookup_cons, hne]

theorem assignResults_fresh (df : DataFrame) (results : List VerificationResult)
    (h1 : df.cols.lookup (ltoList "google_verdict") = none)
    (h2 : df.cols.lookup (ltoList "publisher") = none)
    (h3 : df.cols.lookup (ltoList "google_rating") = none)
    (h4 : df.cols.lookup (ltoList "fact_url") = none) :
    assignResults df results = ⟨df.cols ++
      [(ltoList "google_verdict", results.map (fun r => PyVal.str r.verdict)),
       (ltoList "publisher", results.map (fun r => optPyStr r.publisher)),
       (ltoList "google_rating", results.map (fun r => optPyStr r.rating)),
       (ltoList "fact_url", results.map (fun r => optPyStr r.url))]⟩ := by
  have l2 := lookup_extend df.cols (ltoList "publisher") (ltoList "google_verdict")
    (results.map (fun r => PyVal.str r.verdict)) h2 (by decide)
  have l3a := lookup_extend df.cols (ltoList "google_rating") (ltoList "google_verdict")
    (results.map (fun r => PyVal.str r.verdict)) h3 (by decide)
  have l3 := lookup_extend _ (ltoList "google_rating") (ltoList "publisher")
    (results.map (fun r => optPyStr r.publisher)) l3a (by decide)
  have l4a := lookup_extend df.cols (ltoList "fact_url") (ltoList "google_verdict")
    (results.map (fun r => PyVal.str r.verdict)) h4 (by decide)
  have l4b := lookup_extend _ (ltoList "fact_url") (ltoList "publisher")
    (results.map (fun r => optPyStr r.publisher)) l4a (by decide)
  have l4 := lookup_extend _ (ltoList "fact_url") (ltoList "google_rating")
    (results.map (fun r => optPyStr r.rating)) l4b (by decide)
  unfold assignResults
  rw [setCol_append df _ _ h1]
  rw [setCol_append ⟨df.cols ++ _⟩ _ _ l2]
  rw [setCol_append ⟨(df.cols ++ _) ++ _⟩ _ _ l3]
  rw [setCol_append ⟨((df.cols ++ _) ++ _) ++ _⟩ _ _ l4]
  simp [List.append_assoc]

/-- C10 (amended): on a frame that has a `statement` column and none of the
four result column names, the driver returns the frame's columns unchanged
followed by exactly the four new columns `google_verdict`, `publisher`,
`google_rating`, `fact_url`, whose row-i entries come from verifying row
i's statement in row order.  (The amendment adds the precondition that the
four names are absent: when one already exists — e.g. on re-verification —
its values are replaced in place instead, as the counterexample shows.
Python-object identity of the returned frame is outside the value-level
embedding.) -/
theorem verify_all_appends (apiKey : Option (List Char))
    (net : PyVal → HTTPOutcome) (df : DataFrame) (stmts : List PyVal)
    (hs : df.cols.lookup (ltoList "statement") = some stmts)
    (hlen : stmts.length = rowCount df)
    (h1 : df.cols.lookup (ltoList "google_verdict") = none)
    (h2 : df.cols.lookup (ltoList "publisher") = none)
    (h3 : df.cols.lookup (ltoList "google_rating") = none)
    (h4 : df.cols.lookup (ltoList "fact_url") = none) :
    verify_all apiKey net df =
      Except.ok ⟨df.cols ++
        [(ltoList "google_verdict",
            stmts.map (fun st => PyVal.str (rowResult apiKey net st).verdict)),
         (ltoList "publisher",
            stmts.map (fun st => optPyStr (rowResult apiKey net st).publisher)),
         (ltoList "google_rating",
            stmts.map (fun st => optPyStr (rowResult apiKey net st).rating)),
         (ltoList "fact_url",
            stmts.map (fun st => optPyStr (rowResult apiKey net st).url))]⟩ := by
  by_cases hrc : rowCount df = 0
  · have hnil : stmts = [] := by
      rw [← List.length_eq_zero, hlen, hrc]
    subst hnil
    unfold verify_all
    rw [if_pos hrc, assignResults_fresh df [] h1 h2 h3 h4]
    simp
  · unfold verify_all
    rw [if_neg hrc, hs]
    dsimp only
    rw [assignResults_fresh df _ h1 h2 h3 h4]
    simp [List.map_map, Function.comp]

/-- A frame holding a pre-existing `google_verdict` column. -/
def c10Df : DataFrame :=
  ⟨[(ltoList "statement", [PyVal.str (ltoList "x")]),
    (ltoList "google_verdict", [PyVal.str (ltoList "old")])]⟩

def c10Net : PyVal → HTTPOutcome := fun _ => HTTPOutcome.error []

/-- The `google_verdict` column after running the driver on `c10Df` with no
API key configured. -/
def c10OutCol : Option (List PyVal) :=
  match verify_all none c10Net c10Df with
  | Except.ok out => out.cols.lookup (ltoList "google_verdict")
  | Except.error _ => none

/-- C10 counterexample: on an input table that already has a
`google_verdict` column, the driver replaces that pre-existing column's
values (old value "old" becomes "API Key Missing") and the result has 5
columns, not the input's 2 plus 4 — so "augmented with exactly the four
columns … every pre-existing column and row value is unchanged" fails as a
universal statement. -/
theorem verify_all_overwrites_preexisting :
    c10OutCol = some [PyVal.str (ltoList "API Key Missing")] ∧
    c10Df.cols.lookup (ltoList "google_verdict") = some [PyVal.str (ltoList "old")] ∧
    ([PyVal.str (ltoList "API Key Missing")] : List PyVal) ≠
      [PyVal.str (ltoList "old")] ∧
    (match verify_all none c10Net c10Df with
     | Except.ok out => out.cols.length
     | Except.error _ => 0) = 5 := by decide

/-- A frame with only a `statement` column, for the C10 witness. -/
def c10FreshDf : DataFrame := ⟨[(ltoList "statement", [PyVal.str (ltoList "x")])]⟩

/-- C10 witness: the amended statement at a concrete one-row frame. -/
theorem verify_all_appends_witness :
    verify_all none c10Net c10FreshDf =
      Except.ok ⟨c10FreshDf.cols ++
        [(ltoList "google_verdict",
            [PyVal.str (ltoList "x")].map
              (fun st => PyVal.str (rowResult none c10Net st).verdict)),
         (ltoList "publisher",
            [PyVal.str (ltoList "x")].map
              (fun st => optPyStr (rowResult none c10Net st).publisher)),
         (ltoList "google_rating",
            [PyVal.str (ltoList "x")].map
              (fun st => optPyStr (rowResult none c10Net st).rating)),
         (ltoList "fact_url",
            [PyVal.str (ltoList "x")].map
              (fun st => optPyStr (rowResult none c10Net st).url))]⟩ :=
  verify_all_appends none c10Net c10FreshDf [PyVal.str (ltoList "x")]
    rfl rfl rfl rfl rfl rfl

end FactCheck
